import Mathlib

/-!
Verification of `go/graphql-mongo/index.go`: a single-endpoint GraphQL server
backed by MongoDB.  The Go source is shallowly embedded below.

Modelling conventions:
* The document store is a map from (database name, collection name) to the
  list of documents in that collection, in insertion order.
* Fallible external operations (connect, delete, insert, find) are driven by
  explicit Boolean success flags, so that each error path of the source can
  be exercised.
* `log.Fatal` (process termination) is the `ProcResult.fatalExit` outcome.
* Documents inserted by the seeder all have the shape
  `{ID: int32, title: string, slug: string}`, modelled by `Doc`.
-/

namespace GraphqlMongo

/-- A stored document, shaped `{ID: int32, title: string, slug: string}`
as produced by the seeder in `init` (index.go lines 101-120). -/
structure Doc where
  ID : Int
  title : String
  slug : String
deriving DecidableEq, Repr

/-- The backing store: database name → collection name → documents. -/
abbrev Store := String → String → List Doc

/-- A store with no documents anywhere. -/
def emptyStore : Store := fun _ _ => []

/-- A reference to a collection of a named database, as returned by
`client.Database(...).Collection(col)`. -/
structure CollRef where
  db : String
  coll : String
deriving DecidableEq, Repr

/-- Outcome of a code path that may call `log.Fatal`: either a value, or
immediate process termination. -/
inductive ProcResult (A : Type) where
  | ok : A → ProcResult A
  | fatalExit : ProcResult A
deriving DecidableEq, Repr

/-- `GetMongo` (index.go lines 50-64): connects to MongoDB and returns a
reference to collection `col` of the fixed database `"graphql-mongo-zeit"`.
A connection error is fatal (`log.Fatal`).  `connectOk` drives whether
`mongo.Connect` succeeds. -/
def GetMongo (connectOk : Bool) (col : String) : ProcResult CollRef :=
  if connectOk then .ok ⟨"graphql-mongo-zeit", col⟩ else .fatalExit

/-- `collection.DeleteMany(ctx, bson.NewDocument())`: the empty filter
matches everything, so the referenced collection becomes empty. -/
def deleteMany (ref : CollRef) (s : Store) : Store :=
  fun db c => if db == ref.db && c == ref.coll then [] else s db c

/-- `collection.InsertMany`: appends the documents to the referenced
collection. -/
def insertMany (ref : CollRef) (docs : List Doc) (s : Store) : Store :=
  fun db c => if db == ref.db && c == ref.coll then s db c ++ docs else s db c

/-- `Cleanup` (index.go lines 38-47): connects via `GetMongo col` and deletes
every document of that collection; a delete error is fatal (`log.Fatal`). -/
def Cleanup (connectOk deleteOk : Bool) (col : String) (s : Store) :
    ProcResult Store :=
  match GetMongo connectOk col with
  | .fatalExit => .fatalExit
  | .ok ref => if deleteOk then .ok (deleteMany ref s) else .fatalExit

/-- The three fixed documents inserted by the seeder (index.go lines 103-119). -/
def seedDocs : List Doc :=
  [⟨1, "First post", "first-post"⟩,
   ⟨2, "Second post", "second-post"⟩,
   ⟨3, "Third post", "third-post"⟩]

/-- The seeding part of `init` (index.go lines 86-126), in source order:
`GetMongo("posts")` (connect may be fatal), then `Cleanup("post")` (its own
connect and the delete may each be fatal), then `InsertMany` of the three
fixed documents into the collection obtained from `GetMongo("posts")`
(an insert error is fatal).  Note the source passes the collection name
`"posts"` to `GetMongo` but `"post"` to `Cleanup`. -/
def init (connectSeedOk connectCleanupOk deleteOk insertOk : Bool)
    (s : Store) : ProcResult Store :=
  match GetMongo connectSeedOk "posts" with
  | .fatalExit => .fatalExit
  | .ok ref =>
    match Cleanup connectCleanupOk deleteOk "post" s with
    | .fatalExit => .fatalExit
    | .ok s1 =>
      if insertOk then .ok (insertMany ref seedDocs s1) else .fatalExit

/-- The resolver-side record `post` (index.go lines 133-137): `ID` is a
`graphql.ID` (a string), `Slug` and `Title` are strings. -/
structure post where
  ID : String
  Slug : String
  Title : String
deriving DecidableEq, Repr

/-- The zero value `post{}` allocated by `oneResult := &post{}`. -/
def zeroPost : post := ⟨"", "", ""⟩

/-- `cur.Decode(oneResult)`: maps a stored document onto the `post` record
(`ID` rendered as a GraphQL ID string, `slug`/`title` copied). -/
def decodeDoc (d : Doc) : post := ⟨toString d.ID, d.slug, d.title⟩

/-- Modelled from the spec: the MongoDB driver's cursor behaviour after a
failed `Find` is not part of this repository's source; per the spec the
call "degenerates to returning no result", so a failed find is modelled as
an empty cursor, while a successful find yields every document whose `slug`
field equals the argument, in collection order. -/
def findCursor (findOk : Bool) (docs : List Doc) (slug : String) : List Doc :=
  if findOk then docs.filter (fun d => d.slug == slug) else []

/-- `Resolver.Post` (index.go lines 151-180): allocates `oneResult :=
&post{}` (a non-nil pointer to the zero value), connects via
`GetMongo("post")` (fatal on connection error), runs the find (a find error
is only printed), decodes **every** cursor document into `oneResult`
(each decode overwrites the previous one), and finally returns
`&postResolver{oneResult}` if `oneResult` is non-nil, `nil` otherwise.
The returned `Option post` is the `*postResolver`: `some p` is a non-nil
resolver wrapping record `p`, `none` is a nil resolver (a null `post`
field in the GraphQL response). -/
def ResolverPost (connectOk findOk : Bool) (slug : String) (s : Store) :
    ProcResult (Option post) :=
  match GetMongo connectOk "post" with
  | .fatalExit => .fatalExit
  | .ok ref =>
    let oneResult : Option post := some zeroPost
    let cursorDocs := findCursor findOk (s ref.db ref.coll) slug
    let oneResult := cursorDocs.foldl (fun _ d => some (decodeDoc d)) oneResult
    match oneResult with
    | some p => .ok (some p)
    | none => .ok none

/-- Field resolver `postResolver.ID` (index.go lines 183-185). -/
def postResolverID (p : post) : String := p.ID

/-- Field resolver `postResolver.Slug` (index.go lines 187-189). -/
def postResolverSlug (p : post) : String := p.Slug

/-- Field resolver `postResolver.Title` (index.go lines 191-193). -/
def postResolverTitle (p : post) : String := p.Title

/-- The decoded request body of `Handler` (index.go lines 16-20):
`{query, operationName, variables}`.  Variable values are opaque here and
modelled as strings; the `variables` field is named `vars` because
`variables` is reserved in Lean. -/
structure GQLParams where
  query : String
  operationName : String
  vars : List (String × String)
deriving DecidableEq, Repr

/-- An HTTP response as written by `Handler`: status code, optional
`Content-Type` header, body. -/
structure HttpResponse where
  status : Nat
  contentType : Option String
  body : String
deriving DecidableEq, Repr

/-- `http.Error(w, msg, status)` from net/http: sets
`Content-Type: text/plain; charset=utf-8`, writes the status code, and
writes the message followed by a newline. -/
def httpError (msg : String) (status : Nat) : HttpResponse :=
  { status := status
    contentType := some "text/plain; charset=utf-8"
    body := msg ++ "\n" }

/-- `Handler` (index.go lines 15-35), parametric in the GraphQL executor's
response type.  `decoded` is the outcome of `json.NewDecoder(r.Body).Decode`;
`exec` is `graphqlSchema.Exec`; `marshal` is `json.Marshal`.  Returns the
HTTP response together with a flag recording whether the executor ran.
Decode failure: `http.Error(w, err, 400)`, no execution.  Marshal failure:
`http.Error(w, err, 500)`.  Otherwise: `Content-Type: application/json`
and the serialized body with the implicit status 200. -/
def Handler {Response : Type} (decoded : Except String GQLParams)
    (exec : GQLParams → Response)
    (marshal : Response → Except String String) : HttpResponse × Bool :=
  match decoded with
  | .error e => (httpError e 400, false)
  | .ok p =>
    match marshal (exec p) with
    | .error e => (httpError e 500, true)
    | .ok body =>
      ({ status := 200, contentType := some "application/json", body := body },
       true)

/-- The store obtained by a fully successful seeding run from the empty
store. -/
def seededFromEmpty : Store :=
  match init true true true true emptyStore with
  | .ok s => s
  | .fatalExit => emptyStore

/-- The store obtained by a second fully successful seeding run after
`seededFromEmpty`. -/
def seededTwiceFromEmpty : Store :=
  match init true true true true seededFromEmpty with
  | .ok s => s
  | .fatalExit => emptyStore

/-- A store whose `"post"` collection of database `"graphql-mongo-zeit"`
holds two documents with the same slug `"dup"`. -/
def dupStore : Store :=
  fun db c =>
    if db == "graphql-mongo-zeit" && c == "post" then
      [⟨1, "A", "dup"⟩, ⟨2, "B", "dup"⟩]
    else []

/-! ## Helper lemmas -/

/-- The source's final nil check `if s := oneResult; s != nil` merely
re-wraps the option: the result is `.ok oneResult` either way. -/
theorem nilCheck_eq (o : Option post) :
    (match o with
     | some p => ProcResult.ok (some p)
     | none => ProcResult.ok (none : Option post)) = ProcResult.ok o := by
  cases o <;> rfl

/-- With a successful connection, `Resolver.Post` returns the fold of the
overwriting decode loop over the cursor documents. -/
theorem resolverPost_ok (findOk : Bool) (slug : String) (s : Store) :
    ResolverPost true findOk slug s =
      ProcResult.ok
        ((findCursor findOk (s "graphql-mongo-zeit" "post") slug).foldl
          (fun _ d => some (decodeDoc d)) (some zeroPost)) := by
  unfold ResolverPost
  exact nilCheck_eq _

/-- A fold that overwrites its accumulator on every element returns the
image of the last element (on a non-empty list). -/
theorem foldl_overwrite {A B : Type} (f : A → B) :
    ∀ (l : List A) (h : l ≠ []) (b : B),
      l.foldl (fun _ d => f d) b = f (l.getLast h)
  | [a], _, _ => rfl
  | a :: b :: t, _, c => by
      rw [List.foldl_cons]
      rw [foldl_overwrite f (b :: t) (by simp) (f a)]
      rfl

/-- A fold that overwrites a `some` accumulator with `some` values stays
`some`. -/
theorem foldl_overwrite_some {A : Type} (f : A → post) (l : List A)
    (p : post) :
    ∃ q : post, l.foldl (fun _ d => some (f d)) (some p) = some q := by
  cases h : l with
  | nil => exact ⟨p, rfl⟩
  | cons a t =>
    refine ⟨f ((a :: t).getLast (by simp)), ?_⟩
    exact foldl_overwrite (fun d => some (f d)) (a :: t) (by simp) (some p)

/-! ## Claims -/

/-- C1 (code bug): seeding from the empty store inserts the three fixed
documents into collection `"posts"`, but the resolver queries collection
`"post"` (which `Cleanup("post")` just emptied), so after a fully
successful seeding run the query `post(slug: "first-post")` returns the
zero-valued post `{id: "", slug: "", title: ""}` — not the seeded
`{id: "1", slug: "first-post", title: "First post"}` the claim requires. -/
theorem c1_seeded_lookup_misses :
    ResolverPost true true "first-post" seededFromEmpty =
      ProcResult.ok (some zeroPost) ∧
    zeroPost ≠ decodeDoc ⟨1, "First post", "first-post"⟩ := by
  constructor
  · decide
  · decide

/-- C2 (code bug): for a slug matching no document the claim requires a nil
`*postResolver` (a null `post` field).  But the nil check is performed on
the freshly allocated `oneResult := &post{}`, which is never nil, so the
resolver returns a non-nil resolver wrapping the zero-valued post instead
of nil: on the empty store, `post(slug: "nonexistent")` yields
`some {id: "", slug: "", title: ""}`, never `none`. -/
theorem c2_notfound_not_null :
    ResolverPost true true "nonexistent" emptyStore =
      ProcResult.ok (some zeroPost) ∧
    ResolverPost true true "nonexistent" emptyStore ≠
      ProcResult.ok (none : Option post) := by
  constructor
  · decide
  · decide

/-- C3 (code bug): one successful seeding run from the empty store does
leave collection `"posts"` holding exactly the three fixed documents, but
re-running the seeder does NOT leave three documents: `Cleanup` clears
collection `"post"` while `InsertMany` targets `"posts"`, so the second
run appends three more documents and `"posts"` ends with six. -/
theorem c3_reseed_not_idempotent :
    seededFromEmpty "graphql-mongo-zeit" "posts" = seedDocs ∧
    (seededTwiceFromEmpty "graphql-mongo-zeit" "posts").length = 6 ∧
    seededTwiceFromEmpty "graphql-mongo-zeit" "posts" =
      seedDocs ++ seedDocs := by
  refine ⟨by decide, by decide, by decide⟩

/-- C4 (confirmed): when the JSON body fails to decode, `Handler` responds
with status 400, body the decode error message followed by a newline
(hence non-empty and containing the message), and the GraphQL executor is
never invoked (the execution flag is `false`). -/
theorem c4_decode_failure_400 {Response : Type} (e : String)
    (exec : GQLParams → Response)
    (marshal : Response → Except String String) :
    Handler (Except.error e) exec marshal =
      (httpError e 400, false) ∧
    (Handler (Except.error e) exec marshal).1.status = 400 ∧
    (Handler (Except.error e) exec marshal).1.body = e ++ "\n" ∧
    0 < (Handler (Except.error e) exec marshal).1.body.length := by
  refine ⟨rfl, rfl, rfl, ?_⟩
  show 0 < (e ++ "\n").length
  have h : (e ++ "\n").length = e.length + 1 := String.length_append e "\n"
  omega

/-- C5 counterexample: the claim says a failed database connection during a
resolver call is only logged and "the process does not terminate"; but
`GetMongo` calls `log.Fatal` on a connection error, so the resolver call
with a failed connection terminates the process.  (Moreover a failed find
never yields a null `post` field: it yields the non-nil zero-valued
post.) -/
theorem c5_connect_failure_terminates :
    ResolverPost false true "first-post" emptyStore = ProcResult.fatalExit ∧
    ResolverPost true false "first-post" emptyStore ≠
      ProcResult.ok (none : Option post) := by
  constructor
  · decide
  · decide

/-- C5 (amended): when the find query fails (connection having succeeded),
the error is only printed and the resolver degenerates to the same non-nil
zero-valued post that a not-found lookup produces — no GraphQL-level error
is surfaced and the caller cannot distinguish the failure from a not-found
result; a failed database connection, by contrast, calls `log.Fatal` and
terminates the process. -/
theorem c5_find_failure_indistinguishable (slug : String) (s s2 : Store) :
    ResolverPost true false slug s = ProcResult.ok (some zeroPost) ∧
    ResolverPost true false slug s = ResolverPost true true slug emptyStore ∧
    ResolverPost false true slug s2 = ProcResult.fatalExit := by
  refine ⟨?_, ?_, rfl⟩
  · rw [resolverPost_ok]
    rfl
  · rw [resolverPost_ok, resolverPost_ok]
    rfl

/-- C6 counterexample: on a collection holding two documents with slug
`"dup"`, the resolver returns the decode of the SECOND document, not the
first: the loop `for cur.Next { cur.Decode(oneResult) }` overwrites
`oneResult` on every iteration, so the last match wins. -/
theorem c6_first_match_refuted :
    ResolverPost true true "dup" dupStore =
      ProcResult.ok (some (decodeDoc ⟨2, "B", "dup"⟩)) ∧
    decodeDoc (⟨2, "B", "dup"⟩ : Doc) ≠ decodeDoc ⟨1, "A", "dup"⟩ := by
  constructor
  · decide
  · decide

/-- C6 (amended): for every slug with at least one matching document, the
resolver returns the LAST document produced by the result cursor (each
decode overwriting the previous), ignoring all earlier matches. -/
theorem c6_returns_last_match (slug : String) (s : Store)
    (h : (s "graphql-mongo-zeit" "post").filter (fun d => d.slug == slug) ≠ []) :
    ResolverPost true true slug s =
      ProcResult.ok (some (decodeDoc
        (((s "graphql-mongo-zeit" "post").filter
          (fun d => d.slug == slug)).getLast h))) := by
  rw [resolverPost_ok]
  unfold findCursor
  rw [if_pos rfl]
  rw [foldl_overwrite (fun d => some (decodeDoc d)) _ h]

/-- Witness for C6's amended theorem at the two-document store. -/
theorem c6_returns_last_match_witness :
    ResolverPost true true "dup" dupStore =
      ProcResult.ok (some (decodeDoc
        (((dupStore "graphql-mongo-zeit" "post").filter
          (fun d => d.slug == "dup")).getLast (by decide)))) :=
  c6_returns_last_match "dup" dupStore (by decide)

/-- C7 (confirmed): when the body decodes and the executor's response
serializes, `Handler` responds 200 with `Content-Type: application/json`
and the serialized body (and the executor did run); when serialization
fails, it responds 500 with the error message via `http.Error`. -/
theorem c7_success_and_marshal_failure {Response : Type} (p : GQLParams)
    (exec : GQLParams → Response)
    (marshal : Response → Except String String) (body e : String) :
    (marshal (exec p) = Except.ok body →
      Handler (Except.ok p) exec marshal =
        ({ status := 200, contentType := some "application/json",
           body := body }, true)) ∧
    (marshal (exec p) = Except.error e →
      Handler (Except.ok p) exec marshal = (httpError e 500, true)) := by
  constructor <;> intro h <;> simp [Handler, h]

/-- Witness for C7 at a concrete request, executor and serializer. -/
theorem c7_success_witness :
    Handler (Except.ok (⟨"query", "", []⟩ : GQLParams))
        (fun _ => "resp") (fun r => Except.ok r) =
      ({ status := 200, contentType := some "application/json",
         body := "resp" }, true) :=
  (c7_success_and_marshal_failure ⟨"query", "", []⟩ (fun _ => "resp")
    (fun r => Except.ok r) "resp" "e").1 rfl

/-- C8 (confirmed): if any of the seeder's fallible steps fails — the
connect of `GetMongo("posts")`, the connect inside `Cleanup("post")`, the
delete, or the insert of the three documents — `init` ends in `log.Fatal`:
immediate process termination, with no non-fatal continuation. -/
theorem c8_seed_failures_fatal (c1 c2 d i : Bool) (s : Store)
    (h : c1 = false ∨ c2 = false ∨ d = false ∨ i = false) :
    init c1 c2 d i s = ProcResult.fatalExit := by
  cases c1 <;> cases c2 <;> cases d <;> cases i <;> first
    | rfl
    | simp at h

/-- Witness for C8: a failed insert aborts the seeding run. -/
theorem c8_seed_failures_fatal_witness :
    init true true true false emptyStore = ProcResult.fatalExit :=
  c8_seed_failures_fatal true true true false emptyStore
    (Or.inr (Or.inr (Or.inr rfl)))

/-- C9 (confirmed): whenever `Resolver.Post` returns (i.e. the connection
succeeded), it returns a non-nil `*postResolver` for every slug, every
store and every find outcome — the nil check inspects the freshly
allocated `&post{}` and always succeeds — and when no document matched,
the wrapped post is the zero value (empty id, slug and title). -/
theorem c9_always_nonnil (findOk : Bool) (slug : String) (s : Store) :
    (∃ p : post, ResolverPost true findOk slug s =
      ProcResult.ok (some p)) ∧
    ResolverPost true findOk slug s ≠ ProcResult.ok (none : Option post) ∧
    ((s "graphql-mongo-zeit" "post").filter (fun d => d.slug == slug) = [] →
      ResolverPost true findOk slug s = ProcResult.ok (some zeroPost)) := by
  rw [resolverPost_ok]
  obtain ⟨q, hq⟩ :=
    foldl_overwrite_some decodeDoc
      (findCursor findOk (s "graphql-mongo-zeit" "post") slug) zeroPost
  rw [hq]
  refine ⟨⟨q, rfl⟩, by simp, ?_⟩
  intro hm
  have hc : findCursor findOk (s "graphql-mongo-zeit" "post") slug = [] := by
    unfold findCursor
    cases findOk <;> simp [hm]
  rw [hc] at hq
  simp at hq
  rw [hq]

/-- Witness for C9 on the empty store. -/
theorem c9_always_nonnil_witness :
    (∃ p : post, ResolverPost true true "a" emptyStore =
      ProcResult.ok (some p)) ∧
    ResolverPost true true "a" emptyStore ≠
      ProcResult.ok (none : Option post) ∧
    ((emptyStore "graphql-mongo-zeit" "post").filter
        (fun d => d.slug == "a") = [] →
      ResolverPost true true "a" emptyStore =
        ProcResult.ok (some zeroPost)) :=
  c9_always_nonnil true "a" emptyStore

/-- C10 (confirmed): every collection reference the program obtains comes
from `GetMongo`, and any reference `GetMongo` returns lives in the single
fixed database `"graphql-mongo-zeit"` — no call site can reach another
database. -/
theorem c10_fixed_database (connectOk : Bool) (col : String) (ref : CollRef)
    (h : GetMongo connectOk col = ProcResult.ok ref) :
    ref.db = "graphql-mongo-zeit" := by
  cases connectOk
  · simp [GetMongo] at h
  · simp [GetMongo] at h
    rw [← h]

/-- Witness for C10 at the resolver's call site `GetMongo("post")`. -/
theorem c10_fixed_database_witness :
    (⟨"graphql-mongo-zeit", "post"⟩ : CollRef).db = "graphql-mongo-zeit" :=
  c10_fixed_database true "post" ⟨"graphql-mongo-zeit", "post"⟩ rfl

end GraphqlMongo
